import Mathlib

/-!
Verification of the halo2 Fibonacci gadget (src/src/main.rs) against its
natural-language specification.

The development shallowly embeds the arithmetization layer: the constraint
system built by `FiboChip::configure`, and the row-assignment operations
`FiboChip::assign_first_row` / `FiboChip::assign_row` driven by
`MyCircuit::synthesize`.  The host library's layouter is modelled, following
the spec's Region Allocator contract, as a row counter with a capacity bound
(rows beyond capacity make `Selector::enable` fail, mirroring the host
library's NotEnoughRows failure); advice cells are `Option F` values, with
the absent sentinel `none` for unassigned witnesses, and fallible operations
return `Except Error`.
-/

namespace FibV

variable {F : Type} [CommRing F]

/-- Errors of the host library surfaced by the source: `Error::Synthesis`
(raised via `ok_or` when a required witness value is absent) and the
row-capacity failure that `Selector::enable` can report. -/
inductive Error where
  | Synthesis
  | NotEnoughRows
  deriving DecidableEq, Repr

/-- Coordinate of a table cell: advice column index (0 = a, 1 = b, 2 = c)
and absolute row. -/
structure CellRef where
  col : Nat
  row : Nat
  deriving DecidableEq, Repr

/-- Embedding of `ACell<F>` (a wrapped `AssignedCell`): the coordinate of the
assigned cell together with its (possibly absent) value. -/
structure ACell (F : Type) where
  cell : CellRef
  value : Option F
  deriving DecidableEq, Repr

/-- One physical row of the witness table: the three advice cells and the
selector flag of that row. -/
structure RowCells (F : Type) where
  a : Option F
  b : Option F
  c : Option F
  selector : Bool
  deriving DecidableEq, Repr

/-- Embedding of the layouter state: the rows assigned so far (each
`assign_region` call of the source lays out exactly one new row, so the
allocator is a row counter, as the spec's Region Allocator section states),
the declared copy-constraint edges, and the capacity bound on rows. -/
structure Layouter (F : Type) where
  rows : List (RowCells F)
  copies : List (CellRef × CellRef)
  maxRows : Nat
  deriving DecidableEq, Repr

/-- Embedding of Rust's `Option::ok_or`, as used in the `to` closures of
`assign_advice`: a present value succeeds, an absent one raises the given
error. -/
def okOr {α : Type} (o : Option α) (e : Error) : Except Error α :=
  match o with
  | some v => Except.ok v
  | none => Except.error e

/-- Model of `Selector::enable` on the row being laid out: succeeds within
the layouter's capacity and fails with the host library's row-exhaustion
error beyond it. -/
def enableSelector (l : Layouter F) (row : Nat) : Except Error Unit :=
  if row < l.maxRows then Except.ok () else Except.error Error.NotEnoughRows

/-- Embedding of `FiboChip::assign_first_row` (src lines 91-145).  It lays
out the next free row (row 0 when the layouter is fresh), enables the
selector there propagating any failure (the source applies `?` on line 105),
then assigns the three advice cells.  Faithful to the source text: the `to`
closures of all three `assign_advice` calls read `a.ok_or(Error::Synthesis)`
(lines 117, 124 and 134), and the sum `c_val` computed on line 128 is never
used. -/
def FiboChip.assign_first_row (l : Layouter F) (a b : Option F) :
    Except Error (Layouter F × ACell F × ACell F × ACell F) := do
  let row := l.rows.length
  let _ ← enableSelector l row
  let av ← okOr a Error.Synthesis
  let bv ← okOr a Error.Synthesis
  let _c_val : Option F := a.bind fun x => b.map fun y => x + y
  let cv ← okOr a Error.Synthesis
  Except.ok
    ({ rows := l.rows ++ [⟨some av, some bv, some cv, true⟩],
       copies := l.copies,
       maxRows := l.maxRows },
     ⟨⟨0, row⟩, some av⟩, ⟨⟨1, row⟩, some bv⟩, ⟨⟨2, row⟩, some cv⟩)

/-- Embedding of `FiboChip::assign_row` (src lines 147-175).  It lays out
the next free row; the result of `Selector::enable` is discarded (the source
line 153 lacks `?`), so a failure there leaves the selector flag unset but
execution continues.  `copy_advice` places `prev_b`'s value in column a and
`prev_c`'s value in column b of the new row and records the two equality
edges; the new c cell is the sum of the two predecessor values, raising
`Error::Synthesis` when either is absent (the identifier in the source's
final `ok_or` is the computed sum `c_val`, the only optional value in
scope). -/
def FiboChip.assign_row (l : Layouter F) (prev_b prev_c : ACell F) :
    Except Error (Layouter F × ACell F) :=
  let row := l.rows.length
  let selEnabled : Bool :=
    match enableSelector l row with
    | Except.ok _ => true
    | Except.error _ => false
  let a_val := prev_b.value
  let b_val := prev_c.value
  let c_val : Option F := prev_b.value.bind fun b => prev_c.value.map fun c => b + c
  match okOr c_val Error.Synthesis with
  | Except.error e => Except.error e
  | Except.ok cv =>
      Except.ok
        ({ rows := l.rows ++ [⟨a_val, b_val, some cv, selEnabled⟩],
           copies := l.copies ++ [(prev_b.cell, ⟨0, row⟩), (prev_c.cell, ⟨1, row⟩)],
           maxRows := l.maxRows },
         ⟨⟨2, row⟩, some cv⟩)

/-- Embedding of `MyCircuit<F>` (src lines 178-182): the two optional seed
witnesses. -/
structure MyCircuit (F : Type) where
  a : Option F
  b : Option F
  deriving DecidableEq, Repr

/-- The `#[derive(Default)]` instance of `MyCircuit`: both optional seeds
default to the absent sentinel. -/
def MyCircuit.defaultCircuit : MyCircuit F := ⟨none, none⟩

/-- Embedding of `MyCircuit::without_witnesses` (src lines 188-190): returns
`Self::default()`, ignoring the receiver. -/
def MyCircuit.without_witnesses (_c : MyCircuit F) : MyCircuit F :=
  MyCircuit.defaultCircuit

/-- Iteration count of the synthesis loop: the source iterates
`for _i in 3..10` (src line 216). -/
def fibLoopIters : Nat := 10 - 3

/-- The loop body of `MyCircuit::synthesize` (src lines 216-225), one
recursive step per loop index: call `assign_row` on the current
`(prev_b, prev_c)` pair, then rebind `prev_b` to the old `prev_c` and
`prev_c` to the freshly returned c cell. -/
def synthLoop : Layouter F → ACell F → ACell F → Nat →
    Except Error (Layouter F × ACell F × ACell F)
  | l, pb, pc, 0 => Except.ok (l, pb, pc)
  | l, pb, pc, n + 1 => do
      let r ← FiboChip.assign_row l pb pc
      synthLoop r.1 pc r.2 n

/-- Embedding of `MyCircuit::synthesize` (src lines 201-228): assign the
first row from the circuit's seeds, then run the loop for `fibLoopIters`
iterations threading the `(b, c)` cells. -/
def MyCircuit.synthesize (circuit : MyCircuit F) (l : Layouter F) :
    Except Error (Layouter F) := do
  let r ← FiboChip.assign_first_row l circuit.a circuit.b
  let s ← synthLoop r.1 r.2.2.1 r.2.2.2 fibLoopIters
  Except.ok s.1

/-- A fresh layouter with the given row capacity (no rows, no copy
constraints). -/
def emptyLayouter (maxRows : Nat) : Layouter F := ⟨[], [], maxRows⟩

/-- Run the circuit as `main` does (src lines 233-249): seeds fed to
`MyCircuit`, capacity 2^k rows with k = 4. -/
def runCircuit (a b : Option F) : Except Error (Layouter F) :=
  MyCircuit.synthesize ⟨a, b⟩ (emptyLayouter (2 ^ 4))

/-- Role of a table column, mirroring the host library's column types used
by the source (`Column<Advice>` and `Column<Instance>`). -/
inductive ColumnKind where
  | Advice
  | Instance
  deriving DecidableEq, Repr

/-- A declared table column: its role and its index among columns of that
role. -/
structure Column where
  kind : ColumnKind
  index : Nat
  deriving DecidableEq, Repr

/-- Embedding of the host library's symbolic `Expression<F>` tree as queried
and combined inside `create_gate`: selector queries, advice queries at a
rotation, constants, sums, products and negations (subtraction is sum with a
negation, as in the host library). -/
inductive Expression (F : Type) where
  | Constant (c : F)
  | Sel (s : Nat)
  | AdvQ (col : Column) (rot : Int)
  | Sum (x y : Expression F)
  | Product (x y : Expression F)
  | Negated (x : Expression F)
  deriving DecidableEq, Repr

instance : Add (Expression F) := ⟨Expression.Sum⟩

instance : Mul (Expression F) := ⟨Expression.Product⟩

instance : Neg (Expression F) := ⟨Expression.Negated⟩

instance : Sub (Expression F) := ⟨fun x y => Expression.Sum x (Expression.Negated y)⟩

/-- Evaluation of a symbolic expression against a concrete row: `sv` gives
the value of each selector on that row, `av` the value of each queried
advice column at a relative rotation. -/
def Expression.eval (sv : Nat → F) (av : Column → Int → F) : Expression F → F
  | Expression.Constant c => c
  | Expression.Sel s => sv s
  | Expression.AdvQ col rot => av col rot
  | Expression.Sum x y => x.eval sv av + y.eval sv av
  | Expression.Product x y => x.eval sv av * y.eval sv av
  | Expression.Negated x => -(x.eval sv av)

/-- A declared gate: its name and the list of polynomial constraints it
enforces on every selector-active row. -/
structure Gate (F : Type) where
  name : String
  polys : List (Expression F)
  deriving DecidableEq, Repr

/-- Embedding of the parts of `ConstraintSystem<F>` that `configure`
touches: the selector counter, the declared gates, and the columns with
equality (copy-constraint) eligibility enabled. -/
structure ConstraintSystem (F : Type) where
  num_selectors : Nat
  gates : List (Gate F)
  equalityCols : List Column
  deriving DecidableEq, Repr

/-- Model of `ConstraintSystem::enable_equality`: records the column as
eligible for copy constraints. -/
def ConstraintSystem.enable_equality (meta : ConstraintSystem F) (col : Column) :
    ConstraintSystem F :=
  { meta with equalityCols := meta.equalityCols ++ [col] }

/-- Model of `ConstraintSystem::create_gate`: appends one named gate with
the constraint list produced by the gate closure. -/
def ConstraintSystem.create_gate (meta : ConstraintSystem F) (n : String)
    (polys : List (Expression F)) : ConstraintSystem F :=
  { meta with gates := meta.gates ++ [⟨n, polys⟩] }

/-- The polynomial built in the source's `create_gate` closure (src lines
61-77): `s * (a + b - c)` over the selector query and the three advice
queries at the current rotation. -/
def addPoly (s : Nat) (col_a col_b col_c : Column) : Expression F :=
  Expression.Sel s *
    (Expression.AdvQ col_a 0 + Expression.AdvQ col_b 0 - Expression.AdvQ col_c 0)

/-- Embedding of the source's `FiboConfig`: the three advice columns and
the selector index. -/
structure FiboConfig where
  advice : List Column
  selector : Nat
  deriving DecidableEq, Repr

/-- Embedding of `FiboChip::configure` (src lines 44-87): allocates a fresh
selector (`meta.selector()`), enables equality on the three advice columns
and the instance column, declares the single gate named "add" with the
constraint `s * (a + b - c)`, and returns the config holding the advice
columns and the selector. -/
def FiboChip.configure (meta : ConstraintSystem F)
    (advice : Column × Column × Column) (inst : Column) :
    ConstraintSystem F × FiboConfig :=
  let col_a := advice.1
  let col_b := advice.2.1
  let col_c := advice.2.2
  let sel := meta.num_selectors
  let m1 : ConstraintSystem F := { meta with num_selectors := meta.num_selectors + 1 }
  let m2 := m1.enable_equality col_a
  let m3 := m2.enable_equality col_b
  let m4 := m3.enable_equality col_c
  let m5 := m4.enable_equality inst
  let m6 := m5.create_gate "add" [addPoly sel col_a col_b col_c]
  (m6, { advice := [col_a, col_b, col_c], selector := sel })

/-- Rows of a synthesis result (empty on error). -/
def rowsOf (r : Except Error (Layouter F)) : List (RowCells F) :=
  match r with
  | Except.ok l => l.rows
  | Except.error _ => []

/-- Copy-constraint edges of a synthesis result (empty on error). -/
def copiesOf (r : Except Error (Layouter F)) : List (CellRef × CellRef) :=
  match r with
  | Except.ok l => l.copies
  | Except.error _ => []

/-- The c value of the last assigned row of a synthesis result. -/
def lastCOf (r : Except Error (Layouter F)) : Option F :=
  match r with
  | Except.ok l => (l.rows.getLast?).bind fun row => row.c
  | Except.error _ => none

/-- The copy-constraint edges declared over the full synthesis run: for the
first successor row the sources are row 0's b and c cells, and for every
later row r the sources are the returned c cells of rows r-2 and r-1 (the
threaded `prev_b` and `prev_c`). -/
def fibCopyEdges : List (CellRef × CellRef) :=
  [(⟨1, 0⟩, ⟨0, 1⟩), (⟨2, 0⟩, ⟨1, 1⟩),
   (⟨2, 0⟩, ⟨0, 2⟩), (⟨2, 1⟩, ⟨1, 2⟩),
   (⟨2, 1⟩, ⟨0, 3⟩), (⟨2, 2⟩, ⟨1, 3⟩),
   (⟨2, 2⟩, ⟨0, 4⟩), (⟨2, 3⟩, ⟨1, 4⟩),
   (⟨2, 3⟩, ⟨0, 5⟩), (⟨2, 4⟩, ⟨1, 5⟩),
   (⟨2, 4⟩, ⟨0, 6⟩), (⟨2, 5⟩, ⟨1, 6⟩),
   (⟨2, 5⟩, ⟨0, 7⟩), (⟨2, 6⟩, ⟨1, 7⟩)]

/-- Claim C1, evaluated at the failing input: with both seeds present,
a0 = 1 and b0 = 2, `assign_first_row` does allocate row 0 and enable its
selector, but writes the seed a0 into all three advice columns, producing
the row (1, 1, 1) where the claim requires (1, 2, 3): the b column does not
receive b0 and the c column does not receive a0 + b0. -/
theorem c1_first_row_writes_seed_a_everywhere :
    FiboChip.assign_first_row (emptyLayouter 16) (some (1 : Int)) (some 2) =
      Except.ok
        (⟨[⟨some 1, some 1, some 1, true⟩], [], 16⟩,
         ⟨⟨0, 0⟩, some 1⟩, ⟨⟨1, 0⟩, some 1⟩, ⟨⟨2, 0⟩, some 1⟩)
    ∧ some (1 : Int) ≠ some 2 ∧ some (1 : Int) ≠ some (1 + 2 : Int) :=
  ⟨rfl, by decide, by decide⟩

/-- Claim C2: `FiboChip.configure` appends exactly one gate, named "add",
whose single constraint is the expression `s * (a + b - c)` over the
selector it allocates and the three advice columns at the current rotation;
on any concrete row the constraint evaluates to `s * (a + b - c)`, so on a
row where the selector is active it vanishes exactly when a + b = c. -/
theorem c2_configure_single_add_gate (meta : ConstraintSystem F)
    (col_a col_b col_c inst : Column) :
    (FiboChip.configure meta (col_a, col_b, col_c) inst).1.gates
        = meta.gates ++ [⟨"add", [addPoly meta.num_selectors col_a col_b col_c]⟩]
    ∧ (FiboChip.configure meta (col_a, col_b, col_c) inst).2.selector
        = meta.num_selectors
    ∧ (∀ (sv : Nat → F) (av : Column → Int → F),
        (addPoly meta.num_selectors col_a col_b col_c).eval sv av
          = sv meta.num_selectors * (av col_a 0 + av col_b 0 - av col_c 0))
    ∧ (∀ (sv : Nat → F) (av : Column → Int → F),
        sv meta.num_selectors = 1 →
          ((addPoly meta.num_selectors col_a col_b col_c).eval sv av = 0
            ↔ av col_a 0 + av col_b 0 = av col_c 0)) := by
  refine ⟨rfl, rfl, ?_, ?_⟩
  · intro sv av
    rw [sub_eq_add_neg]
    rfl
  · intro sv av h
    have he : (addPoly meta.num_selectors col_a col_b col_c).eval sv av
        = sv meta.num_selectors * (av col_a 0 + av col_b 0 - av col_c 0) := by
      rw [sub_eq_add_neg]
      rfl
    rw [he, h, one_mul, sub_eq_zero]

/-- A selector valuation marking every selector active, used to witness the
gate evaluation at a concrete row. -/
def svOne : Nat → Int := fun _ => 1

/-- An advice valuation assigning 2 to every queried cell, used to witness
the gate evaluation at a concrete row. -/
def avTwo : Column → Int → Int := fun _ _ => 2

/-- Witness for claim C2: the theorem applied to a fresh constraint system
and concretely numbered columns, with the active-selector hypothesis
discharged at the all-ones selector valuation. -/
theorem c2_witness :
    (FiboChip.configure (F := Int) ⟨0, [], []⟩
        (⟨ColumnKind.Advice, 0⟩, ⟨ColumnKind.Advice, 1⟩, ⟨ColumnKind.Advice, 2⟩)
        ⟨ColumnKind.Instance, 0⟩).1.gates
      = [⟨"add", [addPoly 0 ⟨ColumnKind.Advice, 0⟩ ⟨ColumnKind.Advice, 1⟩
            ⟨ColumnKind.Advice, 2⟩]⟩]
    ∧ ((addPoly 0 ⟨ColumnKind.Advice, 0⟩ ⟨ColumnKind.Advice, 1⟩
          ⟨ColumnKind.Advice, 2⟩ : Expression Int).eval svOne avTwo = 0
        ↔ avTwo ⟨ColumnKind.Advice, 0⟩ 0 + avTwo ⟨ColumnKind.Advice, 1⟩ 0
            = avTwo ⟨ColumnKind.Advice, 2⟩ 0) := by
  have h := c2_configure_single_add_gate (F := Int) ⟨0, [], []⟩
      ⟨ColumnKind.Advice, 0⟩ ⟨ColumnKind.Advice, 1⟩ ⟨ColumnKind.Advice, 2⟩
      ⟨ColumnKind.Instance, 0⟩
  exact ⟨h.1, h.2.2.2 svOne avTwo rfl⟩

/-- Claim C3: with both predecessor cells holding present values and a free
row within capacity, `assign_row` allocates the next row, enables its
selector, declares the two copy-constraint edges from `prev_b` to the new
row's a cell and from `prev_c` to the new row's b cell, writes the copied
values into columns a and b and their field sum into column c, and returns
the new c cell. -/
theorem c3_assign_row_ok (l : Layouter F) (pb pc : ACell F) (vb vc : F)
    (hb : pb.value = some vb) (hc : pc.value = some vc)
    (hcap : l.rows.length < l.maxRows) :
    FiboChip.assign_row l pb pc =
      Except.ok
        ({ rows := l.rows ++ [⟨some vb, some vc, some (vb + vc), true⟩],
           copies := l.copies ++ [(pb.cell, ⟨0, l.rows.length⟩), (pc.cell, ⟨1, l.rows.length⟩)],
           maxRows := l.maxRows },
         ⟨⟨2, l.rows.length⟩, some (vb + vc)⟩) := by
  unfold FiboChip.assign_row
  rw [hb, hc]
  simp [okOr, enableSelector, hcap]

/-- Witness for claim C3: the theorem applied to a one-row layouter of
capacity 16 with predecessor cells holding 1 and 2; the produced row is
(1, 2, 3) with its selector on and both copy edges recorded. -/
theorem c3_witness :
    (1 : Nat) < 16
    ∧ FiboChip.assign_row (⟨[⟨some 1, some 1, some 2, true⟩], [], 16⟩ : Layouter Int)
        ⟨⟨1, 0⟩, some 1⟩ ⟨⟨2, 0⟩, some 2⟩
      = Except.ok
          (⟨[⟨some 1, some 1, some 2, true⟩, ⟨some 1, some 2, some 3, true⟩],
            [(⟨1, 0⟩, ⟨0, 1⟩), (⟨2, 0⟩, ⟨1, 1⟩)], 16⟩,
           ⟨⟨2, 1⟩, some 3⟩) :=
  ⟨by decide, c3_assign_row_ok _ _ _ 1 2 rfl rfl (by decide)⟩

/-- Claim C4, evaluated at the failing input: `assign_first_row` with seed a
present (value 1) and seed b absent succeeds instead of failing, writing 1
into all three columns, because all three value closures read seed a; only
an absent seed a produces the Synthesis error. -/
theorem c4_missing_b_not_rejected :
    FiboChip.assign_first_row (emptyLayouter 16) (some (1 : Int)) none =
      Except.ok
        (⟨[⟨some 1, some 1, some 1, true⟩], [], 16⟩,
         ⟨⟨0, 0⟩, some 1⟩, ⟨⟨1, 0⟩, some 1⟩, ⟨⟨2, 0⟩, some 1⟩)
    ∧ FiboChip.assign_first_row (emptyLayouter 16) (none : Option Int) (some 2) =
        Except.error Error.Synthesis :=
  ⟨rfl, rfl⟩

/-- Claim C5, evaluated at the seeds of `main` (a = 1, b = 1): the synthesis
produces 8 rows and the last row's c value is 34, not the 55 the claim and
`main` expect, because the first row's c cell is seeded with a0 instead of
a0 + b0, shifting the whole sequence by one step. -/
theorem c5_final_c_is_34_not_55 :
    lastCOf (runCircuit (some (1 : Int)) (some 1)) = some 34
    ∧ (34 : Int) ≠ 55
    ∧ (rowsOf (runCircuit (some (1 : Int)) (some 1))).length = 8 :=
  ⟨rfl, by decide, rfl⟩

/-- Counterexample to claim C6 as stated: the synthesis loop runs 7 times
(the source range 3..10) while it produces 8 rows, so the iteration count
equals neither rowCount - 2 for the produced row count nor 10 - 2 for the
spec's stated N = 10. -/
theorem c6_counterexample :
    fibLoopIters = 7
    ∧ (rowsOf (runCircuit (some (1 : Int)) (some 1))).length = 8
    ∧ fibLoopIters ≠ (rowsOf (runCircuit (some (1 : Int)) (some 1))).length - 2
    ∧ fibLoopIters ≠ 10 - 2 :=
  ⟨rfl, rfl, by decide, by decide⟩

/-- Claim C6 as amended: after the first row the assembler iterates exactly
7 times — one fewer than the 8 rows it produces — and each iteration calls
`assign_row` on the current `(prev_b, prev_c)` pair and rebinds `prev_b` to
the old `prev_c` and `prev_c` to the newly returned c cell. -/
theorem c6_loop_runs_seven_times (x y : F) :
    (rowsOf (runCircuit (some x) (some y))).length = fibLoopIters + 1
    ∧ fibLoopIters = 7
    ∧ ∀ (l : Layouter F) (pb pc : ACell F) (n : Nat),
        synthLoop l pb pc (n + 1)
          = (FiboChip.assign_row l pb pc).bind fun r => synthLoop r.1 pc r.2 n :=
  ⟨rfl, rfl, fun _ _ _ _ => rfl⟩

/-- Claim C7: in the trace produced from any pair of present seeds, every
row r ≥ 1 has its a value equal to the previous row's b value and its b
value equal to the previous row's c value, and the declared copy-constraint
edges are exactly `fibCopyEdges`, which bind every successor row's a and b
cells to earlier cells (row 1's to row 0's b and c cells, row r's to the c
cells of rows r-2 and r-1). -/
theorem c7_copy_links (x y : F) (r : Nat) (h1 : 1 ≤ r)
    (h2 : r < (rowsOf (runCircuit (some x) (some y))).length) :
    ((rowsOf (runCircuit (some x) (some y))).getD r ⟨none, none, none, false⟩).a
        = ((rowsOf (runCircuit (some x) (some y))).getD (r - 1) ⟨none, none, none, false⟩).b
    ∧ ((rowsOf (runCircuit (some x) (some y))).getD r ⟨none, none, none, false⟩).b
        = ((rowsOf (runCircuit (some x) (some y))).getD (r - 1) ⟨none, none, none, false⟩).c
    ∧ copiesOf (runCircuit (some x) (some y)) = fibCopyEdges := by
  have hlen : (rowsOf (runCircuit (some x) (some y))).length = 8 := rfl
  rw [hlen] at h2
  interval_cases r
  all_goals exact ⟨rfl, rfl, rfl⟩

/-- Witness for claim C7: the theorem applied to the seeds of `main` at
row 3. -/
theorem c7_witness :
    (1 : Nat) ≤ 3
    ∧ (3 : Nat) < (rowsOf (runCircuit (some (1 : Int)) (some 1))).length
    ∧ (((rowsOf (runCircuit (some (1 : Int)) (some 1))).getD 3 ⟨none, none, none, false⟩).a
        = ((rowsOf (runCircuit (some (1 : Int)) (some 1))).getD 2 ⟨none, none, none, false⟩).b
      ∧ ((rowsOf (runCircuit (some (1 : Int)) (some 1))).getD 3 ⟨none, none, none, false⟩).b
          = ((rowsOf (runCircuit (some (1 : Int)) (some 1))).getD 2 ⟨none, none, none, false⟩).c
      ∧ copiesOf (runCircuit (some (1 : Int)) (some 1)) = fibCopyEdges) :=
  ⟨by decide, by decide, c7_copy_links 1 1 3 (by decide) (by decide)⟩

/-- Claim C8: synthesis is deterministic — runs from equal seed values and
equal initial layouter states produce identical results (the same cell
values in every row and the same copy-constraint list), since the layer is
a pure function of its inputs. -/
theorem c8_synthesize_deterministic (a b a' b' : Option F) (l l' : Layouter F)
    (ha : a = a') (hb : b = b') (hl : l = l') :
    MyCircuit.synthesize ⟨a, b⟩ l = MyCircuit.synthesize ⟨a', b'⟩ l' := by
  subst ha
  subst hb
  subst hl
  rfl

/-- Witness for claim C8: two runs from the seeds of `main` coincide. -/
theorem c8_witness :
    some (1 : Int) = some 1
    ∧ (emptyLayouter 16 : Layouter Int) = emptyLayouter 16
    ∧ MyCircuit.synthesize (⟨some (1 : Int), some 1⟩ : MyCircuit Int) (emptyLayouter 16)
        = MyCircuit.synthesize (⟨some (1 : Int), some 1⟩ : MyCircuit Int) (emptyLayouter 16) :=
  ⟨rfl, rfl, c8_synthesize_deterministic _ _ _ _ _ _ rfl rfl rfl⟩

/-- Claim C9, evaluated at the failing input: on a layouter whose capacity
is exhausted, `enableSelector` reports an error, yet `assign_row` discards
it and returns Ok with the whole row assigned (selector flag left unset)
and both copy edges declared; `assign_first_row`, which does apply `?` to
the same call, propagates the identical error. -/
theorem c9_enable_error_swallowed :
    enableSelector (⟨[⟨some 1, some 1, some 1, true⟩], [], 1⟩ : Layouter Int) 1
        = Except.error Error.NotEnoughRows
    ∧ FiboChip.assign_row (⟨[⟨some 1, some 1, some 1, true⟩], [], 1⟩ : Layouter Int)
        ⟨⟨1, 0⟩, some 1⟩ ⟨⟨2, 0⟩, some 1⟩
      = Except.ok
          (⟨[⟨some 1, some 1, some 1, true⟩, ⟨some 1, some 1, some 2, false⟩],
            [(⟨1, 0⟩, ⟨0, 1⟩), (⟨2, 0⟩, ⟨1, 1⟩)], 1⟩,
           ⟨⟨2, 1⟩, some 2⟩)
    ∧ FiboChip.assign_first_row (⟨[⟨some 1, some 1, some 1, true⟩], [], 1⟩ : Layouter Int)
        (some 1) (some 1) = Except.error Error.NotEnoughRows :=
  ⟨rfl, rfl, rfl⟩

/-- Claim C10: `without_witnesses` returns the derived default circuit, so
both seed fields are the absent sentinel regardless of the receiver's
values. -/
theorem c10_without_witnesses_clears_seeds (F : Type) (c : MyCircuit F) :
    (MyCircuit.without_witnesses c).a = none
    ∧ (MyCircuit.without_witnesses c).b = none :=
  ⟨rfl, rfl⟩

end FibV
